import Mathlib

set_option maxRecDepth 100000

/-!
Verification development for the `try-db` storage engine
(src/crates/repl/src/main.rs): a shallow embedding in Lean 4 of the
record codec, the page cache (`Pager`), the table, and the cursor,
together with theorems settling the specification claims.

Modelling conventions:
* Bytes are `Nat` values (< 256 for genuine file/record data).
* Rust `String`s are modelled as their UTF-8 byte sequences
  (`List Nat`).  `String::from_utf8_lossy` is the identity on valid
  UTF-8, and the character `'\0'` is the single byte 0, so
  `from_utf8_lossy(bytes).trim_end_matches('\0')` is modelled as
  stripping trailing zero bytes from the byte sequence.  Every byte
  sequence a theorem below evaluates on is plain ASCII, where this
  identification is exact.
* `serialize_row` copies `USERNAME_SIZE` bytes from the username
  buffer with `ptr::copy_nonoverlapping` regardless of the string's
  actual length; the bytes past the end of the string are an
  out-of-bounds read of unspecified adjacent memory.  That
  unspecified memory is modelled by an explicit oracle
  `junk : Nat → Nat` giving the byte read at each username-field
  index past the string's length.
* A panic (out-of-bounds index, `unwrap` of an error) and
  `std::process::exit(1)` are modelled as explicit outcome
  constructors of the result types.
* The backing file is an in-memory byte list.  `seek` on it cannot
  fail, and writes never come up short, so the only `io::Error` paths
  that remain reachable in the source are the ones modelled below.
-/

/-- Size in bytes of the serialized `id` field (`size_of::<i32>()`). -/
def ID_SIZE : Nat := 4

/-- Fixed width of the serialized username field. -/
def USERNAME_SIZE : Nat := 32

/-- Fixed width of the serialized email field. -/
def EMAIL_SIZE : Nat := 255

/-- Offset of the id field inside a serialized row. -/
def ID_OFFSET : Nat := 0

/-- Offset of the username field inside a serialized row. -/
def USERNAME_OFFSET : Nat := ID_OFFSET + ID_SIZE

/-- Offset of the email field inside a serialized row. -/
def EMAIL_OFFSET : Nat := USERNAME_OFFSET + USERNAME_SIZE

/-- Total serialized row width (4 + 32 + 255 = 291). -/
def ROW_SIZE : Nat := ID_SIZE + USERNAME_SIZE + EMAIL_SIZE

/-- Size of one page buffer in bytes. -/
def PAGE_SIZE : Nat := 4096

/-- Maximum number of page slots in the pager. -/
def TABLE_MAX_PAGES : Nat := 100

/-- Whole rows per page (4096 / 291 = 14). -/
def ROWS_PER_PAGE : Nat := PAGE_SIZE / ROW_SIZE

/-- Maximum row capacity of a table (14 * 100 = 1400). -/
def TABLE_MAX_ROWS : Nat := ROWS_PER_PAGE * TABLE_MAX_PAGES

/-- One record: `struct Row { id: i32, username: String, email: String }`.
The strings are modelled as their UTF-8 byte sequences. -/
structure Row where
  id : Int
  username : List Nat
  email : List Nat
deriving DecidableEq

/-- The four bytes of an `i32` in little-endian order (the byte order
`ptr::copy_nonoverlapping` produces on the little-endian targets the
crate supports), via the two's-complement representation. -/
def i32ToBytesLE (id : Int) : List Nat :=
  let n := (id % 4294967296).toNat
  [n % 256, n / 256 % 256, n / 65536 % 256, n / 16777216 % 256]

/-- Reassemble an `i32` from four little-endian bytes (two's complement). -/
def bytesToI32LE (b : List Nat) : Int :=
  let n := b.getD 0 0 + 256 * b.getD 1 0 + 65536 * b.getD 2 0 + 16777216 * b.getD 3 0
  if n < 2147483648 then (n : Int) else (n : Int) - 4294967296

/-- Model of `serialize_row` (src/crates/repl/src/main.rs:512-540).
The id is copied byte for byte.  The username field is filled by
`ptr::copy_nonoverlapping(username_bytes.as_ptr(), dst+4, USERNAME_SIZE)`:
it always copies 32 bytes from the username buffer, so indices past the
string's length read unspecified adjacent memory, modelled by the
oracle `junk`.  The email field copies `min(len, EMAIL_SIZE)` bytes and
then explicitly zero-fills the remainder. -/
def serialize_row (source : Row) (junk : Nat → Nat) : List Nat :=
  i32ToBytesLE source.id
    ++ (List.range USERNAME_SIZE).map
        (fun i => if i < source.username.length then source.username.getD i 0 else junk i)
    ++ (List.range EMAIL_SIZE).map
        (fun i => if i < source.email.length then source.email.getD i 0 else 0)

/-- Strip trailing zero bytes, modelling `trim_end_matches('\0')` on the
byte sequence of the decoded string. -/
def trimTrailingZeros (l : List Nat) : List Nat :=
  (l.reverse.dropWhile (fun b => b == 0)).reverse

/-- Model of `deserialize_row` (src/crates/repl/src/main.rs:542-560):
read the id back from bytes 0..4, and take each text field's span,
decode it (identity on the ASCII data used below) and strip trailing
zero bytes. -/
def deserialize_row (source : List Nat) : Row :=
  { id := bytesToI32LE (source.take ID_SIZE)
  , username := trimTrailingZeros ((source.drop USERNAME_OFFSET).take USERNAME_SIZE)
  , email := trimTrailingZeros ((source.drop EMAIL_OFFSET).take EMAIL_SIZE) }

/-- UTF-8 bytes of the username from the repository's own test data. -/
def balaBytes : List Nat := [98, 97, 108, 97]

/-- UTF-8 bytes of the email from the repository's own test data. -/
def balaEmailBytes : List Nat :=
  [98, 97, 108, 97, 64, 103, 109, 97, 105, 108, 46, 99, 111, 109]

/-- The record from the repository's own test:
`insert 1 bala bala@gmail.com`. -/
def balaRow : Row := { id := 1, username := balaBytes, email := balaEmailBytes }

/-- A concrete oracle for the unspecified memory after the username
buffer: every out-of-bounds byte reads as 65 (ASCII letter A). -/
def junkA : Nat → Nat := fun _ => 65

/-- C1: the claim states that decoding the encoding of any record with
username of at most 32 bytes, email of at most 255 bytes, no interior
zero bytes and id in `[0, 2^31-1]` yields the record back.  The record
`{id 1, username "bala", email "bala@gmail.com"}` satisfies every one of
those conditions, yet when the unspecified memory following the 4-byte
username buffer reads as nonzero bytes (oracle `junkA`), the decoded
username is `"bala"` followed by 28 junk bytes, not `"bala"`: the
round-trip fails on the code. -/
theorem roundtrip_fails_on_short_username :
    deserialize_row (serialize_row balaRow junkA)
      = { id := 1, username := balaBytes ++ List.replicate 28 65, email := balaEmailBytes }
    ∧ deserialize_row (serialize_row balaRow junkA) ≠ balaRow := by
  constructor
  · decide
  · decide

/-- C2: the claim states that the username bytes at offset 4 are
zero-padded to 32 bytes.  On the test record the code instead copies 32
bytes straight from the username buffer, so the 28 padding positions
hold whatever the adjacent memory contained (here the oracle `junkA`,
reading 65), not zero.  The id bytes, the overall length and the
truncation boundaries do behave as claimed. -/
theorem serialized_username_padding_is_junk :
    (serialize_row balaRow junkA).length = ROW_SIZE
    ∧ (serialize_row balaRow junkA).take ID_SIZE = [1, 0, 0, 0]
    ∧ ((serialize_row balaRow junkA).drop USERNAME_OFFSET).take USERNAME_SIZE
        = balaBytes ++ List.replicate 28 65
    ∧ ((serialize_row balaRow junkA).drop EMAIL_OFFSET).take EMAIL_SIZE
        = balaEmailBytes ++ List.replicate 241 0
    ∧ balaBytes ++ List.replicate 28 65 ≠ balaBytes ++ List.replicate 28 0 := by
  refine ⟨by decide, by decide, by decide, by decide, by decide⟩

/-- The page cache: the open-time file contents, the open-time file
length, and one slot per possible page number, each empty or holding a
resident PAGE_SIZE buffer (modelled as a byte function). -/
structure Pager where
  file : List Nat
  file_length : Nat
  pages : List (Option (Nat → Nat))

/-- A table: authoritative row count plus its pager. -/
structure Table where
  num_rows : Nat
  pager : Pager

/-- A cursor over one table: current row index and end flag. -/
structure Cursor where
  table : Table
  row_num : Nat
  end_of_table : Bool

/-- Model of `Cursor::new` (src/crates/repl/src/main.rs:267-273):
always starts at `row_num = 0, end_of_table = false`, whatever the
table's `num_rows` is. -/
def Cursor.new (t : Table) : Cursor :=
  { table := t, row_num := 0, end_of_table := false }

/-- Model of `Cursor::table_start`. -/
def cursor_table_start (c : Cursor) : Cursor :=
  { table := c.table, row_num := 0, end_of_table := c.table.num_rows == 0 }

/-- Model of `Cursor::table_end`. -/
def cursor_table_end (c : Cursor) : Cursor :=
  { table := c.table, row_num := c.table.num_rows, end_of_table := true }

/-- Model of `Cursor::cursor_advance`: increment `row_num`, and set the
end flag once `row_num >= num_rows` (otherwise the flag is unchanged). -/
def cursor_advance (c : Cursor) : Cursor :=
  { table := c.table
  , row_num := c.row_num + 1
  , end_of_table := if c.table.num_rows ≤ c.row_num + 1 then true else c.end_of_table }

/-- Number of whole-or-partial pages implied by the open-time file
length, exactly as computed inside `get_page`. -/
def numPages (file_length : Nat) : Nat :=
  file_length / PAGE_SIZE + (if file_length % PAGE_SIZE = 0 then 0 else 1)

/-- The PAGE_SIZE buffer obtained by reading page `page_num` from the
file (only used when the read succeeds, i.e. a full PAGE_SIZE bytes are
available at the offset). -/
def pageFromFile (file : List Nat) (page_num : Nat) : Nat → Nat :=
  fun i => if i < PAGE_SIZE then file.getD (page_num * PAGE_SIZE + i) 0 else 0

/-- Result of `get_page`: a page buffer plus the pager after the fetch,
or a panic.  The `io::Error` return of the source (`file.seek(..)?`)
cannot occur on the in-memory file, and the `read_exact` error is
`unwrap`ped in the source, i.e. it is a panic. -/
inductive GetPageRes where
  | ok : (Nat → Nat) → Pager → GetPageRes
  | panic : GetPageRes

/-- Model of `get_page` (src/crates/repl/src/main.rs:172-188).
`pager.pages[page_num]` panics when `page_num` is not below the slot
vector's length (no bound check exists in the source).  On an empty
slot a zeroed buffer is allocated; if the page lies within the extent
implied by the open-time file length, `read_exact(&mut *page).unwrap()`
demands a full PAGE_SIZE bytes and panics on a short read.  The slot
then becomes resident. -/
def get_page (pager : Pager) (page_num : Nat) : GetPageRes :=
  if page_num < pager.pages.length then
    match pager.pages.getD page_num none with
    | some page => GetPageRes.ok page pager
    | none =>
      if page_num < numPages pager.file_length then
        if (page_num + 1) * PAGE_SIZE ≤ pager.file.length then
          let page := pageFromFile pager.file page_num
          GetPageRes.ok page
            { file := pager.file, file_length := pager.file_length
            , pages := pager.pages.set page_num (some page) }
        else GetPageRes.panic
      else
        let page : Nat → Nat := fun _ => 0
        GetPageRes.ok page
          { file := pager.file, file_length := pager.file_length
          , pages := pager.pages.set page_num (some page) }
  else GetPageRes.panic

/-- Result of `Cursor::cursor_value`: the row's page buffer together
with the byte offset of the row inside it and the pager after the
fetch, or one of the error/abnormal outcomes.  `fail` is the image of
`get_page`'s `io::Error` branch, unreachable on the in-memory file. -/
inductive CursorValueRes where
  | ok : (Nat → Nat) → Nat → Pager → CursorValueRes
  | tableFull : CursorValueRes
  | fail : CursorValueRes
  | panic : CursorValueRes

/-- Model of `Cursor::cursor_value` (src/crates/repl/src/main.rs:289-304).
Note the guard is `page_num > TABLE_MAX_PAGES`, not `>=`: page number
100 passes the guard and reaches the unchecked slot index inside
`get_page`. -/
def cursor_value (c : Cursor) : CursorValueRes :=
  let page_num := c.row_num / ROWS_PER_PAGE
  if TABLE_MAX_PAGES < page_num then CursorValueRes.tableFull
  else
    match get_page c.table.pager page_num with
    | GetPageRes.ok page pager2 =>
        CursorValueRes.ok page ((c.row_num % ROWS_PER_PAGE) * ROW_SIZE) pager2
    | GetPageRes.panic => CursorValueRes.panic

/-- Overwrite `bytes.length` bytes of a page buffer starting at `off`,
modelling a write through the mutable row slice returned by
`cursor_value`. -/
def writeBytes (page : Nat → Nat) (off : Nat) (bytes : List Nat) : Nat → Nat :=
  fun i => if off ≤ i ∧ i < off + bytes.length then bytes.getD (i - off) 0 else page i

/-- Result of `execute_insert`: success or table-full (each with the
resulting cursor state, since the cursor is mutated in place), or a
panic from `cursor_value().unwrap()`. -/
inductive InsertRes where
  | success : Cursor → InsertRes
  | tableFull : Cursor → InsertRes
  | panic : InsertRes

/-- Model of `execute_insert` (src/crates/repl/src/main.rs:488-497):
seek the cursor to the end, reject when `num_rows >= TABLE_MAX_ROWS`,
otherwise serialize the row into the slot for row `num_rows` (making
its page resident), increment `num_rows` and advance the cursor. -/
def execute_insert (r : Row) (junk : Nat → Nat) (c : Cursor) : InsertRes :=
  let c1 := cursor_table_end c
  if TABLE_MAX_ROWS ≤ c1.table.num_rows then InsertRes.tableFull c1
  else
    match cursor_value c1 with
    | CursorValueRes.ok page off pager2 =>
        let page2 := writeBytes page off (serialize_row r junk)
        let pager3 : Pager :=
          { file := pager2.file, file_length := pager2.file_length
          , pages := pager2.pages.set (c1.row_num / ROWS_PER_PAGE) (some page2) }
        let c2 : Cursor :=
          { table := { num_rows := c1.table.num_rows + 1, pager := pager3 }
          , row_num := c1.row_num, end_of_table := c1.end_of_table }
        InsertRes.success (cursor_advance c2)
    | _ => InsertRes.panic

/-- Result of `execute_select`: the sequence of decoded rows (in the
order they are printed) with the final cursor, or a panic from
`cursor_value().unwrap()`.  `fuelOut` is the artefact of bounding the
source's `while` loop by an explicit fuel; the fuel chosen in
`execute_select` exceeds the loop's iteration count, so it is never
returned from there. -/
inductive SelectRes where
  | rows : List Row → Cursor → SelectRes
  | panic : SelectRes
  | fuelOut : SelectRes

/-- The `while !cursor.end_of_table` loop of `execute_select`:
deserialize the row at the cursor, advance, repeat. -/
def selectLoop : Nat → Cursor → List Row → SelectRes
  | fuel, c, acc =>
    if c.end_of_table then SelectRes.rows acc.reverse c
    else
      match fuel with
      | 0 => SelectRes.fuelOut
      | fuel' + 1 =>
        match cursor_value c with
        | CursorValueRes.ok page off pager2 =>
            let r := deserialize_row ((List.range ROW_SIZE).map (fun i => page (off + i)))
            let c2 : Cursor :=
              { table := { num_rows := c.table.num_rows, pager := pager2 }
              , row_num := c.row_num, end_of_table := c.end_of_table }
            selectLoop fuel' (cursor_advance c2) (r :: acc)
        | _ => SelectRes.panic

/-- Model of `execute_select` (src/crates/repl/src/main.rs:499-510):
seek to the start, then iterate until the end flag.  From `table_start`
the loop runs exactly `num_rows` iterations, so `num_rows + 1` fuel is
never exhausted. -/
def execute_select (c : Cursor) : SelectRes :=
  let c0 := cursor_table_start c
  selectLoop (c0.table.num_rows + 1) c0 []

/-- A fresh pager over an empty file with all slots empty. -/
def freshPager : Pager :=
  { file := [], file_length := 0, pages := List.replicate TABLE_MAX_PAGES none }

/-- A fresh, empty table. -/
def freshTable : Table := { num_rows := 0, pager := freshPager }

/-- A fresh cursor over the fresh table. -/
def freshCursor : Cursor := Cursor.new freshTable

/-- A table whose row count is at capacity (no page resident). -/
def fullTable : Table := { num_rows := TABLE_MAX_ROWS, pager := freshPager }

/-- A fresh cursor over the at-capacity table. -/
def fullCursor : Cursor := Cursor.new fullTable

/-- Insert one row and then run a select, keeping only the decoded row
sequence the select yields. -/
def insertThenSelect : Option (List Row) :=
  match execute_insert balaRow junkA freshCursor with
  | InsertRes.success c =>
    match execute_select c with
    | SelectRes.rows rs _ => some rs
    | _ => none
  | _ => none

/-- C3: the claim states that after inserting `r0..r_{n-1}` a select
yields exactly those records.  Inserting the test record
`{id 1, username "bala", email "bala@gmail.com"}` (which satisfies all
upstream validation) and selecting yields a single row in the right
position, but its username is `"bala"` followed by the 28 junk bytes
the serializer copied from out-of-bounds memory (oracle `junkA`), so
the yielded record differs from the inserted one. -/
theorem select_after_insert_yields_junk_username :
    insertThenSelect
      = some [{ id := 1, username := balaBytes ++ List.replicate 28 65, email := balaEmailBytes }]
    ∧ balaBytes ++ List.replicate 28 65 ≠ balaBytes := by
  refine ⟨by decide, by decide⟩

/-- Result of `pager_flush`: the updated file contents on success,
`processExit` for the two `std::process::exit(1)` calls (out-of-bound
page, non-resident page; the short-write exit cannot occur on the
in-memory file), or a panic from an out-of-bounds index. -/
inductive FlushRes where
  | ok : List Nat → FlushRes
  | processExit : FlushRes
  | panic : FlushRes
deriving DecidableEq

/-- Write `bytes` into `file` starting at byte offset `off`, extending
the file (zero-filling any gap, as seeking past the end does) when the
write reaches past the current end. -/
def writeFileAt (file : List Nat) (off : Nat) (bytes : List Nat) : List Nat :=
  (List.range (max file.length (off + bytes.length))).map
    (fun i => if off ≤ i ∧ i < off + bytes.length then bytes.getD (i - off) 0 else file.getD i 0)

/-- Model of `Pager::pager_flush` (src/crates/repl/src/main.rs:146-169).
The guard is `page_num > TABLE_MAX_PAGES`, so page number 100 passes it
and panics on the slot index instead; an in-range but non-resident page
hits `std::process::exit(1)`; otherwise the first `page_size` bytes of
the resident buffer are written at offset `page_num * PAGE_SIZE`
(`&page[..page_size]` would panic if `page_size` exceeded PAGE_SIZE;
the debug print indexes `page[page_num]`, always in bounds here). -/
def pager_flush (pager : Pager) (page_num : Nat) (page_size : Nat) : FlushRes :=
  if TABLE_MAX_PAGES < page_num then FlushRes.processExit
  else if page_num < pager.pages.length then
    match pager.pages.getD page_num none with
    | none => FlushRes.processExit
    | some page =>
      if page_size ≤ PAGE_SIZE then
        FlushRes.ok (writeFileAt pager.file (page_num * PAGE_SIZE) ((List.range page_size).map page))
      else FlushRes.panic
  else FlushRes.panic

/-- C4: at `num_rows == TABLE_MAX_ROWS` an insert returns table-full
and leaves the table component (row count, page cache, file) exactly as
it was; only the transient cursor position moved (to the end, which is
what `table_end` does before the capacity check). -/
theorem insert_at_capacity_leaves_table_unchanged
    (c : Cursor) (r : Row) (junk : Nat → Nat)
    (h : c.table.num_rows = TABLE_MAX_ROWS) :
    execute_insert r junk c
      = InsertRes.tableFull { table := c.table, row_num := c.table.num_rows, end_of_table := true } := by
  simp [execute_insert, cursor_table_end, h]

/-- Witness for C4 at a concrete at-capacity table. -/
theorem insert_at_capacity_leaves_table_unchanged_witness :
    execute_insert balaRow junkA fullCursor
      = InsertRes.tableFull { table := fullTable, row_num := TABLE_MAX_ROWS, end_of_table := true } :=
  insert_at_capacity_leaves_table_unchanged fullCursor balaRow junkA rfl

/-- Repeat `execute_insert` with the same row, failing (for the
purposes of the claims below) if any insert does not succeed. -/
def insertN : Nat → Row → (Nat → Nat) → Cursor → Option Cursor
  | 0, _, _, c => some c
  | n + 1, r, junk, c =>
    match execute_insert r junk c with
    | InsertRes.success c2 => insertN n r junk c2
    | _ => none

/-- The cursor after `ROWS_PER_PAGE + 1 = 15` successful inserts into a
fresh table. -/
def after15 : Option Cursor := insertN 15 balaRow junkA freshCursor

/-- C5: row addressing.  `ROWS_PER_PAGE = 14` and `ROW_SIZE = 291`; a
row's byte span `[(r % 14) * 291, (r % 14) * 291 + 291)` always fits
inside the 4096-byte page, so it never crosses a page boundary; row 14
is addressed at page `14 / 14 = 1`, byte offset `(14 % 14) * 291 = 0`;
and after 15 inserts into a fresh table exactly two pages (numbers 0
and 1) are resident, with the bytes of row 14 sitting at offset 0 of
page 1. -/
theorem row_addressing :
    ROWS_PER_PAGE = 14 ∧ ROW_SIZE = 291
    ∧ (∀ r : Nat, (r % ROWS_PER_PAGE) * ROW_SIZE + ROW_SIZE ≤ PAGE_SIZE)
    ∧ 14 / ROWS_PER_PAGE = 1 ∧ (14 % ROWS_PER_PAGE) * ROW_SIZE = 0
    ∧ after15.map (fun c => c.table.num_rows) = some 15
    ∧ after15.map (fun c => c.table.pager.pages.countP Option.isSome) = some 2
    ∧ after15.map (fun c =>
        ((c.table.pager.pages.getD 0 none).isSome, (c.table.pager.pages.getD 1 none).isSome))
        = some (true, true)
    ∧ after15.map (fun c =>
        match c.table.pager.pages.getD 1 none with
        | some p => (List.range ROW_SIZE).map p
        | none => []) = some (serialize_row balaRow junkA) := by
  refine ⟨by decide, by decide, ?_, by decide, by decide, by decide, by decide, by decide, by decide⟩
  intro r
  have h : r % ROWS_PER_PAGE < ROWS_PER_PAGE := Nat.mod_lt r (by decide)
  have h14 : ROWS_PER_PAGE = 14 := by decide
  have h291 : ROW_SIZE = 291 := by decide
  have h4096 : PAGE_SIZE = 4096 := by decide
  rw [h14, h291, h4096] at *
  omega

/-- C6: fetching an out-of-range page and flushing a non-resident or
out-of-range page.  `pager_flush` of a non-resident in-range page (0)
and of an out-of-range page (101) both call `std::process::exit(1)`;
`get_page` of page 100 (`TABLE_MAX_PAGES`) hits the unchecked slot
index and panics, as does `cursor_value` at row 1400 whose page number
100 slips through the `>` guard — none of these return an error value
to the caller. -/
theorem flush_exits_and_fetch_panics :
    pager_flush freshPager 0 PAGE_SIZE = FlushRes.processExit
    ∧ pager_flush freshPager 101 PAGE_SIZE = FlushRes.processExit
    ∧ get_page freshPager TABLE_MAX_PAGES = GetPageRes.panic
    ∧ cursor_value { table := fullTable, row_num := TABLE_MAX_ROWS, end_of_table := true }
        = CursorValueRes.panic := by
  refine ⟨rfl, rfl, rfl, rfl⟩

/-- Result of `db_close`: the final pager on success together with a
log of the `(page_num, byte_count)` arguments of each `pager_flush`
call actually performed (recorded for specification purposes only), or
the abnormal outcomes inherited from `pager_flush`. -/
inductive CloseRes where
  | ok : Pager → List (Nat × Nat) → CloseRes
  | processExit : CloseRes
  | panic : CloseRes

/-- The page-flushing loop shared by both halves of `db_close`: visit
each page index in order; a non-resident slot is skipped
(`if pager.pages[i].is_none() { continue; }` — the index itself panics
when out of the slot vector's bounds); a resident slot is flushed with
PAGE_SIZE bytes and then evicted. -/
def closeGo : Pager → List Nat → CloseRes
  | pager, [] => CloseRes.ok pager []
  | pager, i :: rest =>
    if i < pager.pages.length then
      match pager.pages.getD i none with
      | none => closeGo pager rest
      | some _ =>
        match pager_flush pager i PAGE_SIZE with
        | FlushRes.ok file2 =>
          match closeGo { file := file2, file_length := pager.file_length
                        , pages := pager.pages.set i none } rest with
          | CloseRes.ok pager2 log => CloseRes.ok pager2 ((i, PAGE_SIZE) :: log)
          | r => r
        | FlushRes.processExit => CloseRes.processExit
        | FlushRes.panic => CloseRes.panic
    else CloseRes.panic

/-- The page indices `db_close` visits: the full pages
`0 .. num_rows / ROWS_PER_PAGE`, then the trailing partially-filled
page when `num_rows % ROWS_PER_PAGE > 0`. -/
def touchedPages (t : Table) : List Nat :=
  List.range (t.num_rows / ROWS_PER_PAGE)
    ++ (if t.num_rows % ROWS_PER_PAGE = 0 then [] else [t.num_rows / ROWS_PER_PAGE])

/-- Model of `db_close` (src/crates/repl/src/main.rs:310-328).  Both
the full-page loop and the trailing partial-page block call
`pager_flush(page_num, PAGE_SIZE)` — the partial page is flushed with
PAGE_SIZE bytes too, not with `additional_rows * ROW_SIZE`. -/
def db_close (t : Table) : CloseRes :=
  closeGo t.pager (touchedPages t)

/-- Projection: the flush log of a successful close. -/
def closeLog : CloseRes → Option (List (Nat × Nat))
  | CloseRes.ok _ log => some log
  | _ => none

/-- Projection: the backing file's length after a successful close. -/
def closeFileLength : CloseRes → Option Nat
  | CloseRes.ok pager _ => some pager.file.length
  | _ => none

/-- A page buffer of all zero bytes. -/
def zeroPage : Nat → Nat := fun _ => 0

/-- A pager over an empty file whose page 0 is resident. -/
def onePagePager : Pager :=
  { file := [], file_length := 0
  , pages := (List.replicate TABLE_MAX_PAGES (none : Option (Nat → Nat))).set 0 (some zeroPage) }

/-- A table holding exactly one committed row, its page resident. -/
def oneRowTable : Table := { num_rows := 1, pager := onePagePager }

/-- C7 counterexample: the claim states that the trailing
partially-filled page is flushed with `(num_rows % ROWS_PER_PAGE) *
ROW_SIZE` bytes.  Closing a table with one committed row (one resident
page over an empty file) calls `pager_flush(0, PAGE_SIZE)` — byte count
4096, not `1 * 291` — and the file afterwards holds 4096 bytes. -/
theorem close_flushes_partial_page_with_page_size :
    closeLog (db_close oneRowTable) = some [(0, PAGE_SIZE)]
    ∧ closeFileLength (db_close oneRowTable) = some PAGE_SIZE
    ∧ (oneRowTable.num_rows % ROWS_PER_PAGE) * ROW_SIZE = 291
    ∧ PAGE_SIZE ≠ 291 := by
  have h : db_close oneRowTable
      = CloseRes.ok
          { file := writeFileAt [] 0 ((List.range PAGE_SIZE).map zeroPage)
          , file_length := 0
          , pages := ((List.replicate TABLE_MAX_PAGES (none : Option (Nat → Nat))).set 0
              (some zeroPage)).set 0 none }
          [(0, PAGE_SIZE)] := rfl
  refine ⟨by rw [h]; rfl, ?_, by decide, by decide⟩
  rw [h, closeFileLength]
  simp [writeFileAt]

/-- List.getD after setting the same index, for an index in bounds. -/
theorem getD_set_eq_of_lt {α : Type} (l : List α) (i : Nat) (a d : α) (h : i < l.length) :
    (l.set i a).getD i d = a := by
  rw [List.getD_eq_getElem?_getD, List.getElem?_set]
  simp [h]

/-- List.getD after setting a different index. -/
theorem getD_set_ne_idx {α : Type} (l : List α) (i j : Nat) (a d : α) (h : i ≠ j) :
    (l.set i a).getD j d = l.getD j d := by
  rw [List.getD_eq_getElem?_getD, List.getD_eq_getElem?_getD, List.getElem?_set_ne h]

/-- Behaviour of the close loop on a well-formed pager and a
duplicate-free list of in-range page indices: it succeeds, the flush
log is exactly the resident indices in visit order, each with byte
count PAGE_SIZE, and afterwards precisely the visited resident slots
are evicted while every other slot is untouched. -/
theorem closeGo_spec (idxs : List Nat) :
    ∀ pager : Pager,
      pager.pages.length = TABLE_MAX_PAGES →
      (∀ i ∈ idxs, i < TABLE_MAX_PAGES) →
      idxs.Nodup →
      ∃ pager2,
        closeGo pager idxs
          = CloseRes.ok pager2
              ((idxs.filter (fun i => (pager.pages.getD i none).isSome)).map
                (fun i => (i, PAGE_SIZE)))
        ∧ pager2.pages.length = TABLE_MAX_PAGES
        ∧ ∀ j, pager2.pages.getD j none
            = if j ∈ idxs ∧ (pager.pages.getD j none).isSome then none
              else pager.pages.getD j none := by
  induction idxs with
  | nil =>
    intro pager hlen _ _
    exact ⟨pager, by simp [closeGo], hlen, by simp⟩
  | cons i rest ih =>
    intro pager hlen hin hnd
    have hi : i < TABLE_MAX_PAGES := hin i (List.mem_cons_self i rest)
    have hilen : i < pager.pages.length := by rw [hlen]; exact hi
    have hnotin : i ∉ rest := (List.nodup_cons.mp hnd).1
    have hndrest : rest.Nodup := (List.nodup_cons.mp hnd).2
    have hinrest : ∀ j ∈ rest, j < TABLE_MAX_PAGES :=
      fun j hj => hin j (List.mem_cons_of_mem i hj)
    cases hres : pager.pages.getD i none with
    | none =>
      obtain ⟨pager2, heq, hlen2, hpt⟩ := ih pager hlen hinrest hndrest
      have hpredi : ¬((pager.pages.getD i none).isSome = true) := by
        rw [hres]; simp
      refine ⟨pager2, ?_, hlen2, ?_⟩
      · rw [closeGo, if_pos hilen, hres]
        dsimp only
        rw [heq, @List.filter_cons_of_neg _ (fun k => (pager.pages.getD k none).isSome) i rest hpredi]
      · intro j
        rw [hpt j]
        by_cases hji : j = i
        · subst hji
          rw [hres]
          simp
        · simp [List.mem_cons, hji]
    | some pg =>
      have hflush : pager_flush pager i PAGE_SIZE
          = FlushRes.ok (writeFileAt pager.file (i * PAGE_SIZE) ((List.range PAGE_SIZE).map pg)) := by
        rw [pager_flush, if_neg (by omega), if_pos hilen, hres]
        rfl
      obtain ⟨pager2, heq, hlen2, hpt⟩ := ih
        { file := writeFileAt pager.file (i * PAGE_SIZE) ((List.range PAGE_SIZE).map pg)
        , file_length := pager.file_length
        , pages := pager.pages.set i none }
        (by simp [List.length_set, hlen]) hinrest hndrest
      dsimp only at heq hpt
      have hfilt : rest.filter (fun j => ((pager.pages.set i none).getD j none).isSome)
          = rest.filter (fun j => (pager.pages.getD j none).isSome) := by
        refine List.filter_congr ?_
        intro j hj
        have hji : i ≠ j := fun h => hnotin (h ▸ hj)
        rw [getD_set_ne_idx _ _ _ _ _ hji]
      have hpredi : (pager.pages.getD i none).isSome = true := by
        rw [hres]; rfl
      refine ⟨pager2, ?_, hlen2, ?_⟩
      · rw [closeGo, if_pos hilen, hres, hflush]
        dsimp only
        rw [heq]
        dsimp only
        rw [hfilt, @List.filter_cons_of_pos _ (fun k => (pager.pages.getD k none).isSome) i rest hpredi,
          List.map_cons]
      · intro j
        rw [hpt j]
        by_cases hji : j = i
        · subst hji
          rw [getD_set_eq_of_lt _ _ _ _ hilen, hres]
          simp
        · have hij : i ≠ j := fun h => hji h.symm
          rw [getD_set_ne_idx _ _ _ _ _ hij]
          simp [List.mem_cons, hji]

/-- C7 amended: closing a table flushes exactly the resident pages
among those holding committed rows (`touchedPages`), each with
PAGE_SIZE bytes — the trailing partially-filled page included, rather
than with `(num_rows % ROWS_PER_PAGE) * ROW_SIZE` bytes as claimed —
then evicts each flushed slot; non-resident (never inserted-into)
pages and pages beyond the committed rows are neither flushed nor
touched. -/
theorem close_flushes_resident_touched_pages
    (t : Table)
    (hlen : t.pager.pages.length = TABLE_MAX_PAGES)
    (hnr : t.num_rows ≤ TABLE_MAX_ROWS) :
    ∃ pager2,
      db_close t
        = CloseRes.ok pager2
            (((touchedPages t).filter (fun i => (t.pager.pages.getD i none).isSome)).map
              (fun i => (i, PAGE_SIZE)))
      ∧ ∀ j, pager2.pages.getD j none
          = if j ∈ touchedPages t ∧ (t.pager.pages.getD j none).isSome then none
            else t.pager.pages.getD j none := by
  have h14 : ROWS_PER_PAGE = 14 := by decide
  have hmax : TABLE_MAX_ROWS = 1400 := by decide
  have hpages : TABLE_MAX_PAGES = 100 := by decide
  have hin : ∀ i ∈ touchedPages t, i < TABLE_MAX_PAGES := by
    intro i hi
    rcases List.mem_append.mp hi with h | h
    · have := List.mem_range.mp h
      rw [h14] at this
      rw [hpages]
      omega
    · by_cases hz : t.num_rows % ROWS_PER_PAGE = 0
      · simp [hz] at h
      · simp [hz] at h
        subst h
        rw [h14] at hz ⊢
        rw [hmax] at hnr
        rw [hpages]
        omega
  have hnd : (touchedPages t).Nodup := by
    by_cases hz : t.num_rows % ROWS_PER_PAGE = 0
    · simp [touchedPages, hz, List.nodup_range]
    · rw [touchedPages, if_neg hz]
      refine List.Nodup.append (List.nodup_range _) (List.nodup_singleton _) ?_
      intro a ha hb
      rw [List.mem_singleton] at hb
      subst hb
      exact absurd (List.mem_range.mp ha) (lt_irrefl _)
  obtain ⟨pager2, heq, _, hpt⟩ := closeGo_spec (touchedPages t) t.pager hlen hin hnd
  exact ⟨pager2, heq, hpt⟩

/-- Witness for the amended C7 at the concrete one-row table. -/
theorem close_flushes_resident_touched_pages_witness :
    ∃ pager2,
      db_close oneRowTable
        = CloseRes.ok pager2
            (((touchedPages oneRowTable).filter
                (fun i => (oneRowTable.pager.pages.getD i none).isSome)).map
              (fun i => (i, PAGE_SIZE)))
      ∧ ∀ j, pager2.pages.getD j none
          = if j ∈ touchedPages oneRowTable ∧ (oneRowTable.pager.pages.getD j none).isSome then none
            else oneRowTable.pager.pages.getD j none :=
  close_flushes_resident_touched_pages oneRowTable (by decide) (by decide)

/-- A pager over a file holding exactly one 291-byte row (every byte
1), so the file length is not a multiple of PAGE_SIZE. -/
def shortFilePager : Pager :=
  { file := List.replicate 291 1, file_length := 291
  , pages := List.replicate TABLE_MAX_PAGES none }

/-- C8 counterexample: the claim states that a short read at
end-of-file leaves the remainder of the zeroed buffer zero and never
fails or panics.  Page 0 of a 291-byte file lies within the implied
extent (`numPages 291 = 1`), but `read_exact(&mut *page).unwrap()`
demands a full 4096 bytes and panics on the 291-byte file. -/
theorem get_page_panics_on_short_read :
    get_page shortFilePager 0 = GetPageRes.panic
    ∧ 0 < numPages shortFilePager.file_length := by
  exact ⟨rfl, by decide⟩

/-- C8 amended: fetching a page whose slot is empty allocates a zeroed
PAGE_SIZE buffer, makes the slot resident and returns the buffer;
if the page lies wholly within the file, the buffer is filled from the
file at offset `page_number * PAGE_SIZE`; but a page inside the
implied extent whose full PAGE_SIZE bytes are not available (a short
read at end-of-file) panics instead of zero-padding; pages beyond the
implied extent keep the zeroed buffer without any read. -/
theorem get_page_behaviour
    (pager : Pager) (p : Nat)
    (hp : p < pager.pages.length)
    (hempty : pager.pages.getD p none = none)
    (hfl : pager.file_length = pager.file.length) :
    ((p + 1) * PAGE_SIZE ≤ pager.file.length →
      get_page pager p
        = GetPageRes.ok (pageFromFile pager.file p)
            { file := pager.file, file_length := pager.file_length
            , pages := pager.pages.set p (some (pageFromFile pager.file p)) }
      ∧ (∀ i, i < PAGE_SIZE → pageFromFile pager.file p i = pager.file.getD (p * PAGE_SIZE + i) 0)
      ∧ (pager.pages.set p (some (pageFromFile pager.file p))).getD p none
          = some (pageFromFile pager.file p))
    ∧ (pager.file.length < (p + 1) * PAGE_SIZE → p < numPages pager.file_length →
      get_page pager p = GetPageRes.panic)
    ∧ (numPages pager.file_length ≤ p →
      get_page pager p
        = GetPageRes.ok (fun _ => 0)
            { file := pager.file, file_length := pager.file_length
            , pages := pager.pages.set p (some (fun _ => 0)) }
      ∧ (pager.pages.set p (some (fun _ => (0 : Nat)))).getD p none = some (fun _ => 0)) := by
  have h4096 : PAGE_SIZE = 4096 := by decide
  refine ⟨?_, ?_, ?_⟩
  · intro hread
    have hnum : p < numPages pager.file_length := by
      rw [numPages, hfl]
      rw [h4096] at hread ⊢
      by_cases hz : pager.file.length % 4096 = 0 <;> simp [hz] <;> omega
    refine ⟨?_, ?_, getD_set_eq_of_lt _ _ _ _ hp⟩
    · rw [get_page, if_pos hp, hempty]
      dsimp only
      rw [if_pos hnum, if_pos hread]
    · intro i hi
      simp only [pageFromFile]
      rw [if_pos hi]
  · intro h1 h2
    rw [get_page, if_pos hp, hempty]
    dsimp only
    rw [if_pos h2, if_neg (Nat.not_le.mpr h1)]
  · intro h3
    refine ⟨?_, getD_set_eq_of_lt _ _ _ _ hp⟩
    rw [get_page, if_pos hp, hempty]
    dsimp only
    rw [if_neg (Nat.not_lt.mpr h3)]

/-- Witness for the amended C8: fetching page 0 of a fresh pager over
an empty file keeps the zeroed buffer and makes the slot resident. -/
theorem get_page_behaviour_witness :
    get_page freshPager 0
      = GetPageRes.ok (fun _ => 0)
          { file := freshPager.file, file_length := freshPager.file_length
          , pages := freshPager.pages.set 0 (some (fun _ => 0)) }
    ∧ (freshPager.pages.set 0 (some (fun _ => (0 : Nat)))).getD 0 none = some (fun _ => 0) :=
  (get_page_behaviour freshPager 0 (by decide) rfl rfl).2.2 (by decide)

/-- The ROW_SIZE-byte stride read at file offset `off` by the reopen
scan: `file.read(&mut row)` fills as many bytes as remain and leaves
the rest of the zero-initialised buffer zero, which `getD _ 0` models
exactly. -/
def rowAt (file : List Nat) (off : Nat) : List Nat :=
  (List.range ROW_SIZE).map (fun k => file.getD (off + k) 0)

/-- Model of `is_empty_row` (src/crates/repl/src/main.rs:223-232): a
stride is classified empty when no byte in it has its lowest bit set. -/
def is_empty_row (row : List Nat) : Bool :=
  row.all (fun b => b &&& 1 == 0)

/-- Number of iterations of `for i in (0..file_length).step_by(ROW_SIZE)`:
the strides start at offsets 0, ROW_SIZE, ..., below `file_length`. -/
def numStrides (file_length : Nat) : Nat :=
  (file_length + (ROW_SIZE - 1)) / ROW_SIZE

/-- Model of `get_num_rows` (src/crates/repl/src/main.rs:207-221): the
loop counts strides from the start, returning at the first stride
classified empty, i.e. it counts the leading non-empty strides (with
no cap of any kind). -/
def get_num_rows (pager : Pager) : Nat :=
  ((List.range (numStrides pager.file_length)).takeWhile
    (fun i => !(is_empty_row (rowAt pager.file (i * ROW_SIZE))))).length

/-- Model of `Table::open_from_file` composed with `pager_open`
(src/crates/repl/src/main.rs:190-205 and 250-259): the pager starts
with an all-empty cache over the given file bytes, with the open-time
length observed from the file, and `num_rows` is reconstructed by the
scan. -/
def open_from_file (file : List Nat) : Table :=
  let pager : Pager :=
    { file := file, file_length := file.length
    , pages := List.replicate TABLE_MAX_PAGES none }
  { num_rows := get_num_rows pager, pager := pager }

/-- List.getD on a replicate list below its length. -/
theorem getD_replicate_of_lt {α : Type} (n : Nat) (a d : α) (i : Nat) (h : i < n) :
    (List.replicate n a).getD i d = a := by
  rw [List.getD_eq_getElem?_getD, List.getElem?_replicate, if_pos h]
  rfl

/-- The reconstructed row count of an opened table, written out as the
leading-non-empty-stride count (definitional unfolding of
`open_from_file` and `get_num_rows`). -/
theorem open_from_file_num_rows (file : List Nat) :
    (open_from_file file).num_rows
      = ((List.range (numStrides file.length)).takeWhile
          (fun i => !(is_empty_row (rowAt file (i * ROW_SIZE))))).length := rfl

/-- A file of 1401 non-empty ROW_SIZE strides (every byte odd). -/
def file1401 : List Nat := List.replicate (ROW_SIZE * 1401) 1

/-- C9 counterexample: the claim states `num_rows ≤ TABLE_MAX_ROWS` for
a table opened from a file of any length and content.  `get_num_rows`
has no cap: opening a file of 1401 all-odd strides reconstructs
`num_rows = 1401 > 1400`. -/
theorem open_oversized_file_exceeds_capacity :
    TABLE_MAX_ROWS < (open_from_file file1401).num_rows := by
  have hlen : file1401.length = ROW_SIZE * 1401 := by
    simp [file1401]
  have hall : ∀ i ∈ List.range (numStrides file1401.length),
      (!(is_empty_row (rowAt file1401 (i * ROW_SIZE)))) = true := by
    intro i hi
    have hi1401 : i < 1401 := by
      have h1 := List.mem_range.mp hi
      rw [hlen] at h1
      have hns : numStrides (ROW_SIZE * 1401) = 1401 := by decide
      rw [hns] at h1
      exact h1
    have hbyte : file1401.getD (i * ROW_SIZE + 0) 0 = 1 := by
      rw [file1401]
      refine getD_replicate_of_lt _ _ _ _ ?_
      have h291 : ROW_SIZE = 291 := by decide
      rw [h291]
      omega
    have hmem : (1 : Nat) ∈ rowAt file1401 (i * ROW_SIZE) := by
      rw [rowAt]
      refine List.mem_map.mpr ⟨0, ?_, hbyte⟩
      exact List.mem_range.mpr (by decide)
    have hfalse : is_empty_row (rowAt file1401 (i * ROW_SIZE)) = false := by
      rw [is_empty_row]
      refine List.all_eq_false.mpr ⟨1, hmem, ?_⟩
      decide
    rw [hfalse]
    rfl
  rw [open_from_file_num_rows, List.takeWhile_eq_self_iff.mpr hall, List.length_range, hlen]
  decide

/-- C9 amended: `0 ≤ num_rows ≤ TABLE_MAX_ROWS` holds for a table
opened from an existing file whenever the file is no longer than
`TABLE_MAX_ROWS * ROW_SIZE` bytes (the extent 1400 rows can occupy),
whatever its content; for longer files with no empty stride the
reconstructed count exceeds the capacity. -/
theorem open_num_rows_within_capacity (file : List Nat)
    (h : file.length ≤ TABLE_MAX_ROWS * ROW_SIZE) :
    (open_from_file file).num_rows ≤ TABLE_MAX_ROWS := by
  have hle : (open_from_file file).num_rows ≤ numStrides file.length := by
    rw [open_from_file_num_rows]
    calc ((List.range (numStrides file.length)).takeWhile
            (fun i => !(is_empty_row (rowAt file (i * ROW_SIZE))))).length
        ≤ (List.range (numStrides file.length)).length :=
          (List.takeWhile_sublist _).length_le
      _ = numStrides file.length := List.length_range _
  have h291 : ROW_SIZE = 291 := by decide
  have hmax : TABLE_MAX_ROWS = 1400 := by decide
  rw [numStrides, h291] at hle
  rw [hmax, h291] at h
  rw [hmax]
  omega

/-- Witness for the amended C9 at the empty file. -/
theorem open_num_rows_within_capacity_witness :
    (open_from_file []).num_rows ≤ TABLE_MAX_ROWS :=
  open_num_rows_within_capacity [] (by decide)

/-- C10: `Cursor::new` always yields `row_num = 0` and
`end_of_table = false`, whatever the table's `num_rows`; on an empty
table that fresh cursor violates the relation
`end_of_table = true ↔ row_num = num_rows`, and the relation is
(re-)established by `table_start` and by `table_end` (on any table). -/
theorem cursor_new_ignores_num_rows :
    (∀ t : Table, (Cursor.new t).row_num = 0 ∧ (Cursor.new t).end_of_table = false)
    ∧ (∀ t : Table, t.num_rows = 0 →
        ¬(((Cursor.new t).end_of_table = true) ↔ (Cursor.new t).row_num = t.num_rows))
    ∧ (∀ c : Cursor,
        (((cursor_table_start c).end_of_table = true)
          ↔ (cursor_table_start c).row_num = (cursor_table_start c).table.num_rows)
        ∧ (((cursor_table_end c).end_of_table = true)
          ↔ (cursor_table_end c).row_num = (cursor_table_end c).table.num_rows)) := by
  refine ⟨fun t => ⟨rfl, rfl⟩, ?_, ?_⟩
  · intro t ht
    simp [Cursor.new, ht]
  · intro c
    constructor
    · simp only [cursor_table_start]
      rw [beq_iff_eq]
      exact eq_comm
    · simp [cursor_table_end]

/-- Witness for C10 at the concrete empty table. -/
theorem cursor_new_ignores_num_rows_witness :
    ¬(((Cursor.new freshTable).end_of_table = true)
      ↔ (Cursor.new freshTable).row_num = freshTable.num_rows) :=
  cursor_new_ignores_num_rows.2.1 freshTable rfl
